import Mathlib

/-!
Verification of the realman-teleop teleoperation core.

Shallow embedding of the Python sources `realman_teleop/safety.py`,
`realman_teleop/control_modes.py`, `realman_teleop/teleop_base.py`,
`realman_teleop/joystick_teleop.py` and `realman_teleop/robot_controller.py`.
Floats are modelled as rationals; Python dict commands are modelled by the
`Cmd` structure (a `none` field means the key is absent from the dict);
side effects on the robot are modelled as an explicit event list.
-/

namespace RealmanTeleop

/-- A command dictionary as produced by the control modes and consumed by the
safety monitor.  `target = none` / `velocity = none` / `reason = none` model
the absence of the corresponding key. -/
structure Cmd where
  ctype : String
  target : Option (List ℚ) := none
  velocity : Option ℚ := none
  reason : Option String := none
deriving DecidableEq

/-- Python's `max` over a non-empty list (0 on the empty list, which the code
never reaches). -/
def listMax : List ℚ → ℚ
  | [] => 0
  | x :: xs => xs.foldl max x

/-- The fixed assumed time step `dt = 0.01` used by the safety checks. -/
def dtAssumed : ℚ := 1 / 100

/-- State of `SafetyMonitor` (`safety.py`), default values as in `__init__`. -/
structure SafetyMonitor where
  enable_velocity_limits : Bool := true
  enable_workspace_limits : Bool := true
  max_linear_velocity : ℚ := 1 / 2
  max_angular_velocity : ℚ := 1
  max_joint_velocity : ℚ := 30
  workspace_x : ℚ × ℚ := (-(7 / 10), 7 / 10)
  workspace_y : ℚ × ℚ := (-(7 / 10), 7 / 10)
  workspace_z : ℚ × ℚ := (0, 1)
  violations : List String := []
  emergency_stop_triggered : Bool := false
deriving DecidableEq

/-- `SafetyMonitor._check_velocity_limits`.  The robot state reads
`robot.get_current_pose()` / `robot.get_current_joint_angles()` are passed in
as `current_pose` / `current_joints` (`none` models Python `None`). -/
def SafetyMonitor.check_velocity_limits (m : SafetyMonitor)
    (current_pose current_joints : Option (List ℚ)) (commands : Cmd) :
    SafetyMonitor × Cmd :=
  if commands.ctype = "cartesian" then
    let target_pose := commands.target.getD []
    if 6 ≤ target_pose.length then
      match current_pose with
      | none => (m, commands)
      | some cp =>
        if cp.isEmpty then (m, commands) else
        let linear_vel := (List.range 3).map
          (fun i => |(target_pose.getD i 0 - cp.getD i 0) / dtAssumed|)
        let linHit := m.max_linear_velocity < listMax linear_vel
        let m1 := if linHit then
            { m with violations := m.violations ++ ["linear_velocity_exceeded"] }
          else m
        let t1 := if linHit then
            ((List.range 3).map (fun i =>
              cp.getD i 0 + (target_pose.getD i 0 - cp.getD i 0)
                * (m.max_linear_velocity / listMax linear_vel)))
              ++ target_pose.drop 3
          else target_pose
        let angular_vel := (List.range' 3 3).map
          (fun i => |(t1.getD i 0 - cp.getD i 0) / dtAssumed|)
        let angHit := m.max_angular_velocity < listMax angular_vel
        let m2 := if angHit then
            { m1 with violations := m1.violations ++ ["angular_velocity_exceeded"] }
          else m1
        let t2 := if angHit then
            t1.take 3 ++ ((List.range' 3 3).map (fun i =>
              cp.getD i 0 + (t1.getD i 0 - cp.getD i 0)
                * (m.max_angular_velocity / listMax angular_vel)))
          else t1
        (m2, { commands with target := some t2 })
    else (m, commands)
  else if commands.ctype = "joint" then
    let target_joints := commands.target.getD []
    if target_joints.isEmpty then (m, commands) else
    match current_joints with
    | none => (m, commands)
    | some cj =>
      if cj.isEmpty then (m, commands) else
      let joint_vel := (List.range target_joints.length).map
        (fun i => |(target_joints.getD i 0 - cj.getD i 0) / dtAssumed|)
      if m.max_joint_velocity < listMax joint_vel then
        ({ m with violations := m.violations ++ ["joint_velocity_exceeded"] },
         { commands with target := some ((List.range target_joints.length).map
            (fun i => cj.getD i 0 + (target_joints.getD i 0 - cj.getD i 0)
              * (m.max_joint_velocity / listMax joint_vel))) })
      else (m, commands)
  else (m, commands)

/-- One axis of the workspace clip loop in `SafetyMonitor._check_workspace_limits`. -/
def clipAxis (m : SafetyMonitor) (axis : String) (lims : ℚ × ℚ) (i : Nat)
    (t : List ℚ) : SafetyMonitor × List ℚ :=
  if t.getD i 0 < lims.1 then
    ({ m with violations := m.violations ++ [axis ++ "_min_exceeded"] }, t.set i lims.1)
  else if lims.2 < t.getD i 0 then
    ({ m with violations := m.violations ++ [axis ++ "_max_exceeded"] }, t.set i lims.2)
  else (m, t)

/-- `SafetyMonitor._check_workspace_limits`. -/
def SafetyMonitor.check_workspace_limits (m : SafetyMonitor) (commands : Cmd) :
    SafetyMonitor × Cmd :=
  if commands.ctype = "cartesian" then
    let target_pose := commands.target.getD []
    if 3 ≤ target_pose.length then
      let r1 := clipAxis m "x" m.workspace_x 0 target_pose
      let r2 := clipAxis r1.1 "y" r1.1.workspace_y 1 r1.2
      let r3 := clipAxis r2.1 "z" r2.1.workspace_z 2 r2.2
      (r3.1, { commands with target := some r3.2 })
    else (m, commands)
  else (m, commands)

/-- The dict `{'type': 'stop', 'reason': 'emergency_stop'}` returned by
`check_commands` while the emergency-stop flag is set.  Note it carries no
`velocity` key. -/
def stopCmd : Cmd := { ctype := "stop", reason := some "emergency_stop" }

/-- `SafetyMonitor.check_commands`. -/
def SafetyMonitor.check_commands (m : SafetyMonitor)
    (current_pose current_joints : Option (List ℚ)) (commands : Cmd) :
    SafetyMonitor × Cmd :=
  let m0 := { m with violations := [] }
  if m0.emergency_stop_triggered then (m0, stopCmd)
  else
    let r1 := if m0.enable_velocity_limits then
        m0.check_velocity_limits current_pose current_joints commands
      else (m0, commands)
    if r1.1.enable_workspace_limits then r1.1.check_workspace_limits r1.2
    else r1

/-- Side effects on the robot / input device, recorded as a trace. -/
inductive RobotEvent
  | stop
  | dispatch (c : Cmd)
  | cleanup
deriving DecidableEq

/-- `SafetyMonitor.trigger_emergency_stop`: sets the sticky flag and calls
`robot.stop()` (recorded as an event). -/
def SafetyMonitor.trigger_emergency_stop (m : SafetyMonitor) :
    SafetyMonitor × List RobotEvent :=
  ({ m with emergency_stop_triggered := true }, [RobotEvent.stop])

/-- `SafetyMonitor.reset_emergency_stop`. -/
def SafetyMonitor.reset_emergency_stop (m : SafetyMonitor) : SafetyMonitor :=
  { m with emergency_stop_triggered := false, violations := [] }

/-- Iterate `check_commands` over a list of per-call inputs
(current pose, current joints, command), collecting each call's resulting
monitor state and returned command. -/
def checkTrace : SafetyMonitor → List (Option (List ℚ) × Option (List ℚ) × Cmd) →
    List (SafetyMonitor × Cmd)
  | _, [] => []
  | m, (cp, cj, c) :: rest =>
    let r := m.check_commands cp cj c
    r :: checkTrace r.1 rest

/-- `JointControl` (`control_modes.py`), default `max_joint_velocity = 30.0`. -/
structure JointControl where
  max_joint_velocity : ℚ := 30
deriving DecidableEq

/-- `JointControl.compute_command`.  `joint_angles` is
`current_state.get('joint_angles', [])` and `dt` is
`current_state.get('dt', 0.01)`.  On empty joint state the returned dict has
no `velocity` key. -/
def JointControl.compute_command (c : JointControl) (input_velocity : List ℚ)
    (joint_angles : List ℚ) (dt : ℚ) : Cmd :=
  if joint_angles.isEmpty then { ctype := "joint", target := some [] }
  else
    let limited := input_velocity.map
      (fun v => max (min v c.max_joint_velocity) (-c.max_joint_velocity))
    { ctype := "joint",
      target := some ((List.range joint_angles.length).map
        (fun i => joint_angles.getD i 0 + limited.getD i 0 * dt)),
      velocity := some 50 }

/-- `CartesianControl` (`control_modes.py`). -/
structure CartesianControl where
  max_linear_velocity : ℚ := 1 / 2
  max_angular_velocity : ℚ := 1
deriving DecidableEq

/-- `CartesianControl.compute_command`.  `pose` is
`current_state.get('pose', [])`. -/
def CartesianControl.compute_command (c : CartesianControl)
    (input_velocity : List ℚ) (pose : List ℚ) (dt : ℚ) : Cmd :=
  if pose.length ≠ 6 then { ctype := "cartesian", target := some [] }
  else
    let limited := (List.range 6).map (fun i =>
      if i < 3 then
        max (min (input_velocity.getD i 0) c.max_linear_velocity)
          (-c.max_linear_velocity)
      else
        max (min (input_velocity.getD i 0) c.max_angular_velocity)
          (-c.max_angular_velocity))
    { ctype := "cartesian",
      target := some ((List.range 6).map
        (fun i => pose.getD i 0 + limited.getD i 0 * dt)),
      velocity := some 50 }

/-- `self.mode = "joint" if self.mode == "cartesian" else "cartesian"`
(`joystick_teleop.py`, `process_input`). -/
def toggleMode (mode : String) : String :=
  if mode = "cartesian" then "joint" else "cartesian"

/-- The mode-switch handling of `JoystickTeleop.process_input` (lines
168-174; `KeyboardTeleop._read_pygame_input` lines 495-498 plus the reset at
line 556 is the same pattern).  `attr` models the lazily created instance
attribute `_mode_switch_pressed`: `none` means the attribute does not exist
yet, so `hasattr` is `False`; `some b` means it exists with value `b`.
On a press the code toggles only when `not hasattr(self,
'_mode_switch_pressed')`; on release it assigns the attribute `False`
(which keeps it existing). -/
def modeSwitchStep (mode : String) (attr : Option Bool) (pressed : Bool) :
    String × Option Bool :=
  if pressed then
    match attr with
    | none => (toggleMode mode, some true)
    | some b => (mode, some b)
  else (mode, some false)

/-- Fold `modeSwitchStep` over the per-tick pressed states of the
mode-switch input. -/
def runModeSwitch : String → Option Bool → List Bool → String × Option Bool
  | mode, attr, [] => (mode, attr)
  | mode, attr, p :: ps =>
    let s := modeSwitchStep mode attr p
    runModeSwitch s.1 s.2 ps

/-- Per-tick input to the teleoperation loop (`TeleopBase.run`): the flags
read from `read_input()`, the command that `process_input` would produce
this tick, and the robot state the safety monitor would read. -/
structure TickInput where
  emergency_stop : Bool := false
  enable : Bool := false
  cmd : Cmd := { ctype := "joint", target := some [] }
  current_pose : Option (List ℚ) := none
  current_joints : Option (List ℚ) := none
deriving DecidableEq

/-- State of a `TeleopBase` session (with its safety monitor). -/
structure LoopState where
  running : Bool := false
  enabled : Bool := false
  safety : SafetyMonitor := {}
deriving DecidableEq

/-- `TeleopBase.disable`: on an enabled session, clears `enabled` and calls
`robot.stop()`; otherwise a no-op. -/
def LoopState.disableStep (s : LoopState) : LoopState × List RobotEvent :=
  if s.enabled then ({ s with enabled := false }, [RobotEvent.stop])
  else (s, [])

/-- `TeleopBase.emergency_stop`: `robot.stop()`, then `disable()` (which may
call `robot.stop()` again), then `running = False`. -/
def LoopState.emergencyStopStep (s : LoopState) : LoopState × List RobotEvent :=
  let d := s.disableStep
  ({ d.1 with running := false }, RobotEvent.stop :: d.2)

/-- One iteration of the `while self.running` body of `TeleopBase.run`
(the `break` after `emergency_stop()` is realised by `running = false`
stopping the iteration in `runTicks`). -/
def LoopState.runTick (s : LoopState) (t : TickInput) : LoopState × List RobotEvent :=
  if t.emergency_stop then s.emergencyStopStep
  else
    let d := if t.enable then ({ s with enabled := true }, ([] : List RobotEvent))
      else s.disableStep
    if d.1.enabled then
      let chk := d.1.safety.check_commands t.current_pose t.current_joints t.cmd
      ({ d.1 with safety := chk.1 }, d.2 ++ [RobotEvent.dispatch chk.2])
    else d

/-- The `while self.running` loop of `TeleopBase.run` over a finite schedule
of tick inputs; exhausting the schedule models external cancellation
(`stop()`, `KeyboardInterrupt`, or an exception). -/
def LoopState.runTicks : LoopState → List TickInput → LoopState × List RobotEvent
  | s, [] => (s, [])
  | s, t :: ts =>
    if s.running then
      let r1 := s.runTick t
      let r2 := r1.1.runTicks ts
      (r2.1, r1.2 ++ r2.2)
    else (s, [])

/-- `TeleopBase.run` (after a successful `setup()`): set `running`, run the
loop, and in the `finally` block run `cleanup()` — and nothing else. -/
def LoopState.run (s : LoopState) (ts : List TickInput) : LoopState × List RobotEvent :=
  let r := LoopState.runTicks { s with running := true } ts
  (r.1, r.2 ++ [RobotEvent.cleanup])

/-- Connection state of `RobotController` (`robot_controller.py`). -/
structure RobotController where
  connected : Bool
  dof : Nat
deriving DecidableEq

/-- `RobotController.movej`.  The vendor call `self.robot.rm_movej` is passed
in as the function `rm_movej`; the second component records whether the
backend motion call was dispatched. -/
def RobotController.movej (r : RobotController) (rm_movej : List ℚ → ℤ → Bool → ℤ)
    (joint_angles : List ℚ) (velocity : ℤ) (block : Bool) : ℤ × Bool :=
  if ¬ r.connected then (-1, false)
  else if joint_angles.length ≠ r.dof then (-1, false)
  else (rm_movej joint_angles velocity block, true)

/-! ## Helper lemmas -/

lemma range_map_getD (l : List ℚ) :
    (List.range l.length).map (fun i => l.getD i 0) = l := by
  apply List.ext_getElem
  · simp
  · intro i h1 h2
    simp only [List.getElem_map, List.getElem_range, List.getD_eq_getElem?_getD,
      List.getElem?_eq_getElem h2]
    rfl

lemma getD_range_map_lt (f : ℕ → ℚ) {n i : ℕ} (h : i < n) :
    ((List.range n).map f).getD i 0 = f i := by
  simp [List.getD_eq_getElem?_getD, List.getElem?_map, List.getElem?_range h]

lemma getD_replicate_zero (k i : ℕ) : (List.replicate k (0 : ℚ)).getD i 0 = 0 := by
  rcases lt_or_le i k with h | h
  · simp [List.getD_eq_getElem?_getD, List.getElem?_replicate, h]
  · have hk : (List.replicate k (0 : ℚ)).length ≤ i := by simpa using h
    simp [List.getD_eq_getElem?_getD, List.getElem?_eq_none hk]

/-- In the emergency-stopped state, `check_commands` clears the violation
list and returns the stop dict, leaving the flag set. -/
lemma check_commands_estop (m : SafetyMonitor)
    (cp cj : Option (List ℚ)) (c : Cmd) (h : m.emergency_stop_triggered = true) :
    m.check_commands cp cj c = ({ m with violations := [] }, stopCmd) := by
  unfold SafetyMonitor.check_commands
  simp [h]

lemma checkTrace_estop (inputs : List (Option (List ℚ) × Option (List ℚ) × Cmd)) :
    ∀ (m : SafetyMonitor), m.emergency_stop_triggered = true →
      ∀ r ∈ checkTrace m inputs, r.2 = stopCmd ∧ r.1.emergency_stop_triggered = true := by
  induction inputs with
  | nil => intro m _ r hr; simp [checkTrace] at hr
  | cons a rest ih =>
    intro m hm r hr
    obtain ⟨cp, cj, c⟩ := a
    simp only [checkTrace, check_commands_estop m cp cj c hm, List.mem_cons] at hr
    rcases hr with hr | hr
    · subst hr; exact ⟨rfl, hm⟩
    · exact ih { m with violations := [] } hm r hr

/-! ## Claims -/

/-- C1: once `SafetyMonitor.trigger_emergency_stop()` has been called, the
`emergency_stop_triggered` flag is set and a `robot.stop()` is immediately
issued, and every subsequent `check_commands` call returns the stop command
regardless of its input (the flag stays set across the calls), until
`reset_emergency_stop()` clears the flag. -/
theorem estop_latch_sticky (m : SafetyMonitor)
    (inputs : List (Option (List ℚ) × Option (List ℚ) × Cmd)) :
    m.trigger_emergency_stop.1.emergency_stop_triggered = true ∧
    m.trigger_emergency_stop.2 = [RobotEvent.stop] ∧
    (∀ r ∈ checkTrace m.trigger_emergency_stop.1 inputs,
      r.2 = stopCmd ∧ r.1.emergency_stop_triggered = true) ∧
    m.trigger_emergency_stop.1.reset_emergency_stop.emergency_stop_triggered = false := by
  refine ⟨rfl, rfl, ?_, rfl⟩
  exact checkTrace_estop inputs _ rfl

/-- C5 (code bug witness): in the mode-switch handling of
`JoystickTeleop.process_input` / `KeyboardTeleop._read_pygame_input`, the
debounce latch is tested with `hasattr`, but the release branch assigns the
attribute `False`, so the attribute exists forever after the first press and
`hasattr` never becomes false again.  Consequently pressing, releasing and
pressing again toggles the mode only once (on the very first press): the
second rising edge is ignored, while the spec requires one toggle per
press/release cycle. -/
theorem mode_switch_second_press_ignored :
    runModeSwitch "cartesian" none [true, false, true] = ("joint", some false) ∧
    runModeSwitch "cartesian" none [true] = ("joint", some true) := by
  constructor <;> rfl

/-- C10: `RobotController.movej` returns `-1` without any backend call when
not connected or when the joint list length differs from the session DOF;
the backend `rm_movej` is invoked exactly when connected with a list of
length DOF. -/
theorem movej_guard (r : RobotController) (rm : List ℚ → ℤ → Bool → ℤ)
    (angles : List ℚ) (v : ℤ) (b : Bool) :
    (r.connected = false → r.movej rm angles v b = (-1, false)) ∧
    (angles.length ≠ r.dof → r.movej rm angles v b = (-1, false)) ∧
    (r.connected = true → angles.length = r.dof →
      r.movej rm angles v b = (rm angles v b, true)) := by
  unfold RobotController.movej
  refine ⟨fun h => by simp [h], fun h => ?_, fun h1 h2 => by simp [h1, h2]⟩
  by_cases hc : r.connected <;> simp [hc, h]

/-- C10 witness: the three branches of `movej_guard` at concrete inputs. -/
theorem movej_guard_witness :
    RobotController.movej ⟨false, 6⟩ (fun _ _ _ => 0) [] 20 true = (-1, false) ∧
    RobotController.movej ⟨true, 6⟩ (fun _ _ _ => 0) [1] 20 true = (-1, false) ∧
    RobotController.movej ⟨true, 1⟩ (fun _ _ _ => 0) [1] 20 true = (0, true) :=
  ⟨(movej_guard ⟨false, 6⟩ (fun _ _ _ => 0) [] 20 true).1 rfl,
   (movej_guard ⟨true, 6⟩ (fun _ _ _ => 0) [1] 20 true).2.1 (by decide),
   (movej_guard ⟨true, 1⟩ (fun _ _ _ => 0) [1] 20 true).2.2 rfl rfl⟩

/-- C7 (counterexample): an exit from the running loop on which no `Stop` is
issued before `cleanup()`.  A session that is cancelled before any tick (or
whose only tick has the deadman switch released and was never enabled) exits
with `cleanup` as its only robot-side event: the claim that every exit
issues a `Stop` first is false. -/
theorem run_exit_without_stop_cex :
    (LoopState.run {} [{}]).2 = [RobotEvent.cleanup] ∧
    RobotEvent.stop ∉ (LoopState.run {} [{}]).2 := by
  constructor <;> decide

/-- C8 (counterexample): processing a tick whose input reports emergency
stop calls `robot.stop()` (twice: once directly, once via `disable()`) and
exits the loop, but `SafetyMonitor.trigger_emergency_stop()` is never
invoked: the monitor's sticky flag is still `false` afterwards, contrary to
the claim. -/
theorem estop_tick_flag_unset_cex :
    (LoopState.run { enabled := true } [{ emergency_stop := true }]).1.safety.emergency_stop_triggered
        = false ∧
    (LoopState.run { enabled := true } [{ emergency_stop := true }]).2
        = [RobotEvent.stop, RobotEvent.stop, RobotEvent.cleanup] := by
  constructor <;> decide

/-- C9 (counterexample): the stop dict returned by `check_commands` while
emergency-stopped is `{'type': 'stop', 'reason': 'emergency_stop'}` — it
carries no velocity key at all, so not every command returned by the safety
monitor has a `velocityPercent` in `[1,100]`. -/
theorem estop_stop_cmd_no_velocity_cex :
    (SafetyMonitor.check_commands { emergency_stop_triggered := true } none none
      { ctype := "joint", target := some [1], velocity := some 50 }).2.velocity = none := by
  decide

lemma runTicks_not_running (s : LoopState) (hs : s.running = false)
    (ts : List TickInput) : s.runTicks ts = (s, []) := by
  cases ts with
  | nil => rfl
  | cons t ts => simp [LoopState.runTicks, hs]

lemma runTick_disabled_noop (s : LoopState) (t : TickInput)
    (hs : s.enabled = false) (he : t.emergency_stop = false)
    (hen : t.enable = false) : s.runTick t = (s, []) := by
  unfold LoopState.runTick LoopState.disableStep
  simp [he, hen, hs]

lemma runTicks_disabled (t : TickInput) (he : t.emergency_stop = false)
    (hen : t.enable = false) :
    ∀ (k : ℕ) (s : LoopState), s.enabled = false → s.running = true →
      s.runTicks (List.replicate k t) = (s, []) := by
  intro k
  induction k with
  | zero => intro s _ _; rfl
  | succ n ih =>
    intro s hs hr
    rw [List.replicate_succ]
    simp [LoopState.runTicks, hr, runTick_disabled_noop s t hs he hen, ih s hs hr]

/-- C4: with an all-zero input velocity, `JointControl.compute_command`
returns a target equal to the current joint angles and
`CartesianControl.compute_command` returns a target equal to the current
pose, for any `dt` — a no-op hold with no drift (the methods mutate no
instance state, so repeated calls with the same state give the same
target). -/
theorem zero_velocity_hold (jc : JointControl) (cc : CartesianControl)
    (hjv : 0 ≤ jc.max_joint_velocity)
    (hlv : 0 ≤ cc.max_linear_velocity) (hav : 0 ≤ cc.max_angular_velocity)
    (ja : List ℚ) (hja : ja ≠ []) (pose : List ℚ) (hp : pose.length = 6)
    (k k2 : ℕ) (hk : ja.length ≤ k) (hk2 : 6 ≤ k2) (dt dt2 : ℚ) :
    (jc.compute_command (List.replicate k 0) ja dt).target = some ja ∧
    (cc.compute_command (List.replicate k2 0) pose dt2).target = some pose := by
  constructor
  · unfold JointControl.compute_command
    have hne : ja.isEmpty = false := by simpa [List.isEmpty_iff] using hja
    have hcl : (List.replicate k (0 : ℚ)).map
        (fun v => max (min v jc.max_joint_velocity) (-jc.max_joint_velocity))
        = List.replicate k 0 := by
      simp [List.map_replicate, min_eq_left hjv, max_eq_left (neg_nonpos.mpr hjv)]
    simp only [hne, Bool.false_eq_true, if_false, hcl, getD_replicate_zero,
      zero_mul, add_zero]
    exact congrArg some (range_map_getD ja)
  · unfold CartesianControl.compute_command
    have h6 : ¬ pose.length ≠ 6 := by simp [hp]
    simp only [h6, if_false, getD_replicate_zero,
      min_eq_left hlv, max_eq_left (neg_nonpos.mpr hlv),
      min_eq_left hav, max_eq_left (neg_nonpos.mpr hav), ite_self]
    have hconst : (List.range 6).map (fun _ => (0 : ℚ)) = List.replicate 6 0 := by
      simp
    simp only [hconst, getD_replicate_zero, zero_mul, add_zero]
    have := range_map_getD pose
    rw [hp] at this
    exact congrArg some this

/-- C4 witness: the hold at a concrete joint state and pose. -/
theorem zero_velocity_hold_witness :
    (JointControl.compute_command {} (List.replicate 2 0) [1, 2] (1 / 100)).target
        = some [1, 2] ∧
    (CartesianControl.compute_command {} (List.replicate 6 0) [1, 2, 3, 4, 5, 6]
        (1 / 100)).target = some [1, 2, 3, 4, 5, 6] :=
  zero_velocity_hold {} {} (by norm_num) (by norm_num) (by norm_num)
    [1, 2] (by decide) [1, 2, 3, 4, 5, 6] rfl 2 6 (by decide) (by decide)
    (1 / 100) (1 / 100)

/-- C6: from an enabled session, a schedule of `n ≥ 1` ticks whose input has
the deadman switch released (and no emergency stop) produces exactly one
`robot.stop()` call — on the disabling transition tick — and dispatches no
motion command on any of the `n` ticks; from a never-enabled session the
same schedule issues no `Stop` at all. -/
theorem disable_single_stop (m : SafetyMonitor) (t : TickInput)
    (he : t.emergency_stop = false) (hen : t.enable = false)
    (n : ℕ) (hn : 1 ≤ n) :
    (LoopState.run { running := false, enabled := true, safety := m }
        (List.replicate n t)).2 = [RobotEvent.stop, RobotEvent.cleanup] ∧
    (LoopState.run { running := false, enabled := false, safety := m }
        (List.replicate n t)).2 = [RobotEvent.cleanup] := by
  obtain ⟨k, rfl⟩ : ∃ k, n = k + 1 := ⟨n - 1, by omega⟩
  constructor
  · unfold LoopState.run
    rw [List.replicate_succ]
    have hstep : (LoopState.runTick
        { running := true, enabled := true, safety := m } t)
        = ({ running := true, enabled := false, safety := m }, [RobotEvent.stop]) := by
      unfold LoopState.runTick LoopState.disableStep
      simp [he, hen]
    simp [LoopState.runTicks, hstep,
      runTicks_disabled t he hen k { running := true, enabled := false, safety := m }
        rfl rfl]
  · unfold LoopState.run
    simp [runTicks_disabled t he hen (k + 1)
      { running := true, enabled := false, safety := m } rfl rfl]

/-- C6 witness: one disabled tick from an enabled and from a never-enabled
session. -/
theorem disable_single_stop_witness :
    (LoopState.run { running := false, enabled := true, safety := {} }
        (List.replicate 1 {})).2 = [RobotEvent.stop, RobotEvent.cleanup] ∧
    (LoopState.run { running := false, enabled := false, safety := {} }
        (List.replicate 1 {})).2 = [RobotEvent.cleanup] :=
  disable_single_stop {} {} rfl rfl 1 (by decide)

set_option maxHeartbeats 2000000 in
/-- The velocity-limit pass can only change the command's `target` (never its
type, velocity or reason) and the monitor's violation list. -/
lemma cvl_shape (m : SafetyMonitor) (cp cj : Option (List ℚ)) (c : Cmd) :
    (∃ vs, (m.check_velocity_limits cp cj c).1 = { m with violations := vs }) ∧
    (∃ t, (m.check_velocity_limits cp cj c).2 = { c with target := t }) := by
  constructor
  · unfold SafetyMonitor.check_velocity_limits
    rcases cp with _ | l <;> rcases cj with _ | l2 <;> simp only [] <;>
      split_ifs <;> exact ⟨_, rfl⟩
  · unfold SafetyMonitor.check_velocity_limits
    rcases cp with _ | l <;> rcases cj with _ | l2 <;> simp only [] <;>
      split_ifs <;> exact ⟨_, rfl⟩

/-- `clipAxis` can only change the monitor's violation list. -/
lemma clipAxis_monitor (m : SafetyMonitor) (axis : String) (lims : ℚ × ℚ)
    (i : ℕ) (t : List ℚ) :
    ∃ vs, (clipAxis m axis lims i t).1 = { m with violations := vs } := by
  unfold clipAxis
  split_ifs <;> exact ⟨_, rfl⟩

/-- The spec's description of the workspace check: hard-clip a value to the
nearest bound, independently of the other axes. -/
def specClip (lims : ℚ × ℚ) (v : ℚ) : ℚ :=
  if v < lims.1 then lims.1 else if lims.2 < v then lims.2 else v

lemma specClip_mem (lims : ℚ × ℚ) (v : ℚ) (h : lims.1 ≤ lims.2) :
    lims.1 ≤ specClip lims v ∧ specClip lims v ≤ lims.2 := by
  unfold specClip
  split_ifs <;> constructor <;> linarith

lemma clipAxis_zero (m : SafetyMonitor) (axis : String) (lims : ℚ × ℚ)
    (a : ℚ) (rest : List ℚ) :
    (clipAxis m axis lims 0 (a :: rest)).2 = specClip lims a :: rest := by
  unfold clipAxis specClip
  simp only [List.getD_cons_zero, List.set_cons_zero]
  split_ifs <;> rfl

lemma clipAxis_succ (m : SafetyMonitor) (axis : String) (lims : ℚ × ℚ)
    (i : ℕ) (a : ℚ) (rest : List ℚ) :
    clipAxis m axis lims (i + 1) (a :: rest)
      = ((clipAxis m axis lims i rest).1, a :: (clipAxis m axis lims i rest).2) := by
  unfold clipAxis
  simp only [List.getD_cons_succ, List.set_cons_succ]
  split_ifs <;> rfl

/-- On a cartesian command with at least three target components, the
workspace pass clips x, y, z each independently to its own bounds and leaves
the rest of the target untouched. -/
lemma cwl_cartesian (m : SafetyMonitor) (a b c : ℚ) (r : List ℚ)
    (v : Option ℚ) (rn : Option String) :
    ∃ vs, m.check_workspace_limits
        { ctype := "cartesian", target := some (a :: b :: c :: r),
          velocity := v, reason := rn }
      = ({ m with violations := vs },
         { ctype := "cartesian",
           target := some (specClip m.workspace_x a :: specClip m.workspace_y b ::
             specClip m.workspace_z c :: r),
           velocity := v, reason := rn }) := by
  unfold SafetyMonitor.check_workspace_limits
  obtain ⟨vs1, hm1⟩ := clipAxis_monitor m "x" m.workspace_x 0 (a :: b :: c :: r)
  have ht1 := clipAxis_zero m "x" m.workspace_x a (b :: c :: r)
  obtain ⟨vs2, hm2⟩ := clipAxis_monitor { m with violations := vs1 } "y"
    m.workspace_y 0 (b :: c :: r)
  have ht2 := clipAxis_zero { m with violations := vs1 } "y" m.workspace_y b (c :: r)
  obtain ⟨vs3, hm3⟩ := clipAxis_monitor { m with violations := vs2 } "z"
    m.workspace_z 0 (c :: r)
  have ht3 := clipAxis_zero { m with violations := vs2 } "z" m.workspace_z c r
  refine ⟨vs3, ?_⟩
  simp only [Option.getD_some, List.length_cons, clipAxis_succ, hm1, ht1, hm2, ht2,
    hm3, ht3]
  simp [hm1, hm2, hm3, ht1, ht2, ht3, clipAxis_succ]

set_option maxHeartbeats 2000000 in
/-- The velocity-limit pass keeps a present target present and never shrinks
a target below three elements. -/
lemma cvl_target_len (m : SafetyMonitor) (cp cj : Option (List ℚ)) (c : Cmd)
    (l : List ℚ) (ht : c.target = some l) (hl : 3 ≤ l.length) :
    ∃ l2, (m.check_velocity_limits cp cj c).2.target = some l2 ∧ 3 ≤ l2.length := by
  unfold SafetyMonitor.check_velocity_limits
  rcases cp with _ | p <;> rcases cj with _ | j <;>
    simp only [ht, Option.getD_some] <;> split_ifs <;>
    first
      | exact ⟨l, ht, hl⟩
      | (refine ⟨_, rfl, ?_⟩ <;> simp_all)

lemma exists_three (l : List ℚ) (hl : 3 ≤ l.length) :
    ∃ a b c r, l = a :: b :: c :: r := by
  rcases l with _ | ⟨a, _ | ⟨b, _ | ⟨c, r⟩⟩⟩
  · simp at hl
  · simp at hl
  · simp at hl
  · exact ⟨a, b, c, r, rfl⟩

/-- C3: every Cartesian command processed by `check_commands` (workspace
limits enabled, not emergency-stopped, target of at least 3 elements, sane
bounds) comes back with its x, y, z components inside the configured
`[min, max]` of the respective axis; the workspace pass itself hard-clips
each out-of-range component independently to the nearest bound (the spec's
`specClip`), leaving the remaining components untouched; concretely, a
target `x = 0.9` with bound `x ∈ [-0.7, 0.7]` comes back as exactly `0.7`. -/
theorem workspace_clip_independent (m : SafetyMonitor) (cp cj : Option (List ℚ))
    (l : List ℚ) (v : Option ℚ) (rn : Option String)
    (h_ws : m.enable_workspace_limits = true)
    (h_es : m.emergency_stop_triggered = false)
    (hl : 3 ≤ l.length)
    (hx : m.workspace_x.1 ≤ m.workspace_x.2)
    (hy : m.workspace_y.1 ≤ m.workspace_y.2)
    (hz : m.workspace_z.1 ≤ m.workspace_z.2) :
    (m.workspace_x.1 ≤ (((m.check_commands cp cj
        { ctype := "cartesian", target := some l, velocity := v,
          reason := rn }).2.target.getD []).getD 0 0) ∧
     (((m.check_commands cp cj
        { ctype := "cartesian", target := some l, velocity := v,
          reason := rn }).2.target.getD []).getD 0 0) ≤ m.workspace_x.2 ∧
     m.workspace_y.1 ≤ (((m.check_commands cp cj
        { ctype := "cartesian", target := some l, velocity := v,
          reason := rn }).2.target.getD []).getD 1 0) ∧
     (((m.check_commands cp cj
        { ctype := "cartesian", target := some l, velocity := v,
          reason := rn }).2.target.getD []).getD 1 0) ≤ m.workspace_y.2 ∧
     m.workspace_z.1 ≤ (((m.check_commands cp cj
        { ctype := "cartesian", target := some l, velocity := v,
          reason := rn }).2.target.getD []).getD 2 0) ∧
     (((m.check_commands cp cj
        { ctype := "cartesian", target := some l, velocity := v,
          reason := rn }).2.target.getD []).getD 2 0) ≤ m.workspace_z.2) ∧
    ((((m.check_workspace_limits
        { ctype := "cartesian", target := some l, velocity := v,
          reason := rn }).2.target.getD []).getD 0 0)
        = specClip m.workspace_x (l.getD 0 0) ∧
     (((m.check_workspace_limits
        { ctype := "cartesian", target := some l, velocity := v,
          reason := rn }).2.target.getD []).getD 1 0)
        = specClip m.workspace_y (l.getD 1 0) ∧
     (((m.check_workspace_limits
        { ctype := "cartesian", target := some l, velocity := v,
          reason := rn }).2.target.getD []).getD 2 0)
        = specClip m.workspace_z (l.getD 2 0) ∧
     (((m.check_workspace_limits
        { ctype := "cartesian", target := some l, velocity := v,
          reason := rn }).2.target.getD []).drop 3) = l.drop 3) ∧
    ((SafetyMonitor.check_commands {} none none
        { ctype := "cartesian", target := some [9/10, 0, 1/2, 0, 0, 0],
          velocity := some 50 }).2.target = some [7/10, 0, 1/2, 0, 0, 0]) := by
  obtain ⟨a, b, c0, r, rfl⟩ := exists_three l hl
  have key : ∃ vs2 x y z rest, m.check_commands cp cj
      { ctype := "cartesian", target := some (a :: b :: c0 :: r), velocity := v,
        reason := rn }
      = ({ m with violations := vs2 },
         { ctype := "cartesian",
           target := some (specClip m.workspace_x x :: specClip m.workspace_y y ::
             specClip m.workspace_z z :: rest),
           velocity := v, reason := rn }) := by
    unfold SafetyMonitor.check_commands
    dsimp only
    rw [if_neg (by simp [h_es])]
    by_cases hv : m.enable_velocity_limits = true
    · obtain ⟨vs, hmon⟩ := (cvl_shape { m with violations := [] } cp cj
        { ctype := "cartesian", target := some (a :: b :: c0 :: r), velocity := v,
          reason := rn }).1
      obtain ⟨t, hcmd⟩ := (cvl_shape { m with violations := [] } cp cj
        { ctype := "cartesian", target := some (a :: b :: c0 :: r), velocity := v,
          reason := rn }).2
      obtain ⟨l2, hl2, hlen2⟩ := cvl_target_len { m with violations := [] } cp cj
        { ctype := "cartesian", target := some (a :: b :: c0 :: r), velocity := v,
          reason := rn } (a :: b :: c0 :: r) rfl (by simp)
      obtain ⟨a2, b2, c2, r2, rfl⟩ := exists_three l2 hlen2
      have ht2 : t = some (a2 :: b2 :: c2 :: r2) := by
        rw [hcmd] at hl2
        exact hl2
      subst ht2
      obtain ⟨vs3, hw⟩ := cwl_cartesian { m with violations := vs } a2 b2 c2 r2 v rn
      refine ⟨vs3, a2, b2, c2, r2, ?_⟩
      rw [if_pos hv]
      rw [hmon, hcmd]
      rw [if_pos (show ({ m with violations := vs } : SafetyMonitor).enable_workspace_limits
        = true from h_ws)]
      exact hw
    · rw [if_neg hv]
      obtain ⟨vs3, hw⟩ := cwl_cartesian { m with violations := [] } a b c0 r v rn
      refine ⟨vs3, a, b, c0, r, ?_⟩
      rw [if_pos (show ({ m with violations := [] } : SafetyMonitor).enable_workspace_limits
        = true from h_ws)]
      exact hw
  obtain ⟨vs2, x, y, z, rest, hkey⟩ := key
  refine ⟨?_, ?_, by
    norm_num [SafetyMonitor.check_commands, SafetyMonitor.check_velocity_limits,
      SafetyMonitor.check_workspace_limits, clipAxis, specClip, listMax, dtAssumed]⟩
  · rw [hkey]
    simp only [Option.getD_some, List.getD_cons_zero, List.getD_cons_succ]
    exact ⟨(specClip_mem _ _ hx).1, (specClip_mem _ _ hx).2,
      (specClip_mem _ _ hy).1, (specClip_mem _ _ hy).2,
      (specClip_mem _ _ hz).1, (specClip_mem _ _ hz).2⟩
  · obtain ⟨vs0, hw0⟩ := cwl_cartesian m a b c0 r v rn
    rw [hw0]
    simp

/-- C3 witness: the clip at a concrete target, with the default bounds. -/
theorem workspace_clip_independent_witness :
    -(7/10 : ℚ) ≤ (((SafetyMonitor.check_commands {} none none
        { ctype := "cartesian", target := some [9/10, 0, 1/2, 0, 0, 0],
          velocity := some 50, reason := none }).2.target.getD []).getD 0 0) ∧
    (SafetyMonitor.check_commands {} none none
        { ctype := "cartesian", target := some [9/10, 0, 1/2, 0, 0, 0],
          velocity := some 50 }).2.target = some [7/10, 0, 1/2, 0, 0, 0] := by
  have h := workspace_clip_independent {} none none [9/10, 0, 1/2, 0, 0, 0]
    (some 50) none rfl rfl (by decide) (by norm_num) (by norm_num) (by norm_num)
  exact ⟨h.1.1, h.2.2⟩

/-- The workspace pass can only change the command's `target`. -/
lemma cwl_shape (m : SafetyMonitor) (c : Cmd) :
    ∃ t, (m.check_workspace_limits c).2 = { c with target := t } := by
  unfold SafetyMonitor.check_workspace_limits
  dsimp only
  split_ifs <;> exact ⟨_, rfl⟩

/-- Outside the emergency-stopped state, `check_commands` can only change
the command's `target`. -/
lemma check_commands_shape (m : SafetyMonitor) (cp cj : Option (List ℚ)) (c : Cmd)
    (h : m.emergency_stop_triggered = false) :
    ∃ t, (m.check_commands cp cj c).2 = { c with target := t } := by
  unfold SafetyMonitor.check_commands
  dsimp only
  rw [if_neg (by simp [h])]
  by_cases hv : m.enable_velocity_limits = true
  · rw [if_pos hv]
    obtain ⟨t1, h1⟩ := (cvl_shape { m with violations := [] } cp cj c).2
    by_cases hw : (({ m with violations := [] } : SafetyMonitor).check_velocity_limits
        cp cj c).1.enable_workspace_limits = true
    · rw [if_pos hw]
      obtain ⟨t2, h2⟩ := cwl_shape (({ m with violations := [] } :
        SafetyMonitor).check_velocity_limits cp cj c).1
        (({ m with violations := [] } : SafetyMonitor).check_velocity_limits cp cj c).2
      rw [h2, h1]
      exact ⟨t2, rfl⟩
    · rw [if_neg hw]
      exact ⟨t1, h1⟩
  · rw [if_neg hv]
    by_cases hw : ({ m with violations := [] } : SafetyMonitor).enable_workspace_limits = true
    · rw [if_pos hw]
      obtain ⟨t2, h2⟩ := cwl_shape { m with violations := [] } c
      exact ⟨t2, h2⟩
    · rw [if_neg hw]
      exact ⟨c.target, rfl⟩

/-- C9 (amended): `check_commands` never touches the velocity field — a
non-emergency command keeps the velocity set by the control mode, which is
`50 ∈ [1,100]` for every joint/cartesian command computed from an available
state — while the Stop command returned in the emergency-stopped state
carries no velocity field at all. -/
theorem check_commands_velocity_field (m1 m2 : SafetyMonitor)
    (cp cj : Option (List ℚ)) (c : Cmd)
    (h1 : m1.emergency_stop_triggered = false)
    (h2 : m2.emergency_stop_triggered = true)
    (jc : JointControl) (vj ja : List ℚ) (dtj : ℚ) (hja : ja ≠ [])
    (cc : CartesianControl) (vc pose : List ℚ) (dtc : ℚ) (hp : pose.length = 6) :
    ((m1.check_commands cp cj c).2.velocity = c.velocity ∧
     (m1.check_commands cp cj c).2.ctype = c.ctype) ∧
    (m2.check_commands cp cj c).2.velocity = none ∧
    (jc.compute_command vj ja dtj).velocity = some 50 ∧
    (cc.compute_command vc pose dtc).velocity = some 50 ∧
    ((1 : ℚ) ≤ 50 ∧ (50 : ℚ) ≤ 100) := by
  refine ⟨?_, ?_, ?_, ?_, by norm_num⟩
  · obtain ⟨t, hshape⟩ := check_commands_shape m1 cp cj c h1
    rw [hshape]
    exact ⟨rfl, rfl⟩
  · rw [check_commands_estop m2 cp cj c h2]
    rfl
  · unfold JointControl.compute_command
    have hne : ja.isEmpty = false := by simpa [List.isEmpty_iff] using hja
    simp [hne]
  · unfold CartesianControl.compute_command
    simp [hp]

/-- C9 witness: the amended property at concrete monitors, commands and
control-mode states. -/
theorem check_commands_velocity_field_witness :
    ((SafetyMonitor.check_commands {} none none
        { ctype := "joint", target := some [1], velocity := some 50 }).2.velocity
          = some 50 ∧
     (SafetyMonitor.check_commands {} none none
        { ctype := "joint", target := some [1], velocity := some 50 }).2.ctype
          = "joint") ∧
    (SafetyMonitor.check_commands { emergency_stop_triggered := true } none none
        { ctype := "joint", target := some [1], velocity := some 50 }).2.velocity
          = none ∧
    (JointControl.compute_command {} [0] [1] (1/100)).velocity = some 50 ∧
    (CartesianControl.compute_command {} [0, 0, 0, 0, 0, 0] [1, 2, 3, 4, 5, 6]
        (1/100)).velocity = some 50 ∧
    ((1 : ℚ) ≤ 50 ∧ (50 : ℚ) ≤ 100) :=
  check_commands_velocity_field {} { emergency_stop_triggered := true } none none
    { ctype := "joint", target := some [1], velocity := some 50 } rfl rfl
    {} [0] [1] (1/100) (by decide) {} [0, 0, 0, 0, 0, 0] [1, 2, 3, 4, 5, 6]
    (1/100) rfl

/-- Under an exceeded linear limit, the first three components of the
velocity-checked cartesian target are the proportionally rescaled ones. -/
lemma cvl_cart_linear (m : SafetyMonitor) (t0 t1 t2 t3 t4 t5 : ℚ) (tr : List ℚ)
    (p0 p1 p2 p3 p4 p5 : ℚ) (pr : List ℚ) (v : Option ℚ) (rn : Option String)
    (hLin : m.max_linear_velocity <
      listMax [|(t0 - p0) / dtAssumed|, |(t1 - p1) / dtAssumed|, |(t2 - p2) / dtAssumed|]) :
    ((m.check_velocity_limits (some (p0 :: p1 :: p2 :: p3 :: p4 :: p5 :: pr)) none
        { ctype := "cartesian",
          target := some (t0 :: t1 :: t2 :: t3 :: t4 :: t5 :: tr),
          velocity := v, reason := rn }).2.target.getD []).take 3
      = [p0 + (t0 - p0) * (m.max_linear_velocity /
            listMax [|(t0 - p0) / dtAssumed|, |(t1 - p1) / dtAssumed|, |(t2 - p2) / dtAssumed|]),
         p1 + (t1 - p1) * (m.max_linear_velocity /
            listMax [|(t0 - p0) / dtAssumed|, |(t1 - p1) / dtAssumed|, |(t2 - p2) / dtAssumed|]),
         p2 + (t2 - p2) * (m.max_linear_velocity /
            listMax [|(t0 - p0) / dtAssumed|, |(t1 - p1) / dtAssumed|, |(t2 - p2) / dtAssumed|])] := by
  unfold SafetyMonitor.check_velocity_limits
  dsimp only
  simp only [show List.range 3 = [0, 1, 2] from rfl,
    show List.range' 3 3 = [3, 4, 5] from rfl,
    List.map_cons, List.map_nil, List.getD_cons_zero, List.getD_cons_succ,
    Option.getD_some, List.isEmpty_cons, List.length_cons,
    List.drop_succ_cons, List.drop_zero, Bool.false_eq_true, if_false,
    List.cons_append, List.nil_append]
  rw [if_pos (by omega : 6 ≤ tr.length + 1 + 1 + 1 + 1 + 1 + 1)]
  rw [if_pos hLin]
  split_ifs <;> simp

/-- Under an exceeded angular limit, the last three components of the
velocity-checked cartesian target are the proportionally rescaled ones
(independently of whether the linear limit also fired). -/
lemma cvl_cart_angular (m : SafetyMonitor) (t0 t1 t2 t3 t4 t5 : ℚ) (tr : List ℚ)
    (p0 p1 p2 p3 p4 p5 : ℚ) (pr : List ℚ) (v : Option ℚ) (rn : Option String)
    (hAng : m.max_angular_velocity <
      listMax [|(t3 - p3) / dtAssumed|, |(t4 - p4) / dtAssumed|, |(t5 - p5) / dtAssumed|]) :
    ((m.check_velocity_limits (some (p0 :: p1 :: p2 :: p3 :: p4 :: p5 :: pr)) none
        { ctype := "cartesian",
          target := some (t0 :: t1 :: t2 :: t3 :: t4 :: t5 :: tr),
          velocity := v, reason := rn }).2.target.getD []).drop 3
      = [p3 + (t3 - p3) * (m.max_angular_velocity /
            listMax [|(t3 - p3) / dtAssumed|, |(t4 - p4) / dtAssumed|, |(t5 - p5) / dtAssumed|]),
         p4 + (t4 - p4) * (m.max_angular_velocity /
            listMax [|(t3 - p3) / dtAssumed|, |(t4 - p4) / dtAssumed|, |(t5 - p5) / dtAssumed|]),
         p5 + (t5 - p5) * (m.max_angular_velocity /
            listMax [|(t3 - p3) / dtAssumed|, |(t4 - p4) / dtAssumed|, |(t5 - p5) / dtAssumed|])] := by
  unfold SafetyMonitor.check_velocity_limits
  dsimp only
  simp only [show List.range 3 = [0, 1, 2] from rfl,
    show List.range' 3 3 = [3, 4, 5] from rfl,
    List.map_cons, List.map_nil, List.getD_cons_zero, List.getD_cons_succ,
    Option.getD_some, List.isEmpty_cons, List.length_cons,
    List.drop_succ_cons, List.drop_zero, Bool.false_eq_true, if_false,
    List.cons_append, List.nil_append]
  rw [if_pos (by omega : 6 ≤ tr.length + 1 + 1 + 1 + 1 + 1 + 1)]
  split_ifs <;>
    simp_all [List.getD_cons_zero, List.getD_cons_succ, List.cons_append,
      List.nil_append, List.take_succ_cons, List.take_zero, List.drop_succ_cons,
      List.drop_zero]

/-- Under an exceeded joint limit, every component of the velocity-checked
joint target moves from the current angle by the original delta times the
single scale factor `limit / maxComponent`. -/
lemma cvl_joint_prop (m : SafetyMonitor) (tj cj : List ℚ) (vj : Option ℚ)
    (rj : Option String) (htj : tj ≠ []) (hlen : tj.length ≤ cj.length)
    (hJ : m.max_joint_velocity < listMax ((List.range tj.length).map
      (fun i => |(tj.getD i 0 - cj.getD i 0) / dtAssumed|)))
    (i : ℕ) (hi : i < tj.length) :
    (((m.check_velocity_limits none (some cj)
        { ctype := "joint", target := some tj, velocity := vj,
          reason := rj }).2.target.getD []).getD i 0) - cj.getD i 0
      = (tj.getD i 0 - cj.getD i 0) * (m.max_joint_velocity /
          listMax ((List.range tj.length).map
            (fun i => |(tj.getD i 0 - cj.getD i 0) / dtAssumed|))) := by
  have htje : tj.isEmpty = false := by simpa [List.isEmpty_iff] using htj
  have hcj : cj.isEmpty = false := by
    rcases cj with _ | ⟨x, xs⟩
    · rcases tj with _ | ⟨y, ys⟩
      · exact absurd rfl htj
      · simp at hlen
    · rfl
  unfold SafetyMonitor.check_velocity_limits
  dsimp only
  rw [if_neg (by decide : ¬ ("joint" : String) = "cartesian")]
  rw [if_pos (rfl : ("joint" : String) = "joint")]
  simp only [Option.getD_some, htje, hcj, Bool.false_eq_true, if_false]
  rw [if_pos hJ]
  rw [Option.getD_some, getD_range_map_lt _ hi]
  ring

/-- C2: when the implied per-axis velocity of a cartesian command exceeds
the linear (resp. angular) limit, the velocity check rescales the whole
linear (resp. angular) delta vector uniformly by `limit / maxComponent`,
preserving direction; a joint command with an exceeded joint limit is
rescaled the same way over all of its components; in particular with
`maxLinearVelocity = 0.5`, current pose `0` and target `[1,0,0,0,0,0]`,
`check_commands` returns the target `[0.005, 0, 0, 0, 0, 0]`. -/
theorem velocity_limit_proportional_rescale (m : SafetyMonitor)
    (t0 t1 t2 t3 t4 t5 : ℚ) (tr : List ℚ)
    (p0 p1 p2 p3 p4 p5 : ℚ) (pr : List ℚ) (v : Option ℚ) (rn : Option String)
    (tj cj : List ℚ) (vj : Option ℚ) (rj : Option String)
    (htj : tj ≠ []) (hlen : tj.length ≤ cj.length)
    (hJ : m.max_joint_velocity < listMax ((List.range tj.length).map
      (fun i => |(tj.getD i 0 - cj.getD i 0) / dtAssumed|))) :
    (m.max_linear_velocity <
        listMax [|(t0 - p0) / dtAssumed|, |(t1 - p1) / dtAssumed|,
          |(t2 - p2) / dtAssumed|] →
      ((m.check_velocity_limits (some (p0 :: p1 :: p2 :: p3 :: p4 :: p5 :: pr)) none
          { ctype := "cartesian",
            target := some (t0 :: t1 :: t2 :: t3 :: t4 :: t5 :: tr),
            velocity := v, reason := rn }).2.target.getD []).take 3
        = [p0 + (t0 - p0) * (m.max_linear_velocity /
              listMax [|(t0 - p0) / dtAssumed|, |(t1 - p1) / dtAssumed|,
                |(t2 - p2) / dtAssumed|]),
           p1 + (t1 - p1) * (m.max_linear_velocity /
              listMax [|(t0 - p0) / dtAssumed|, |(t1 - p1) / dtAssumed|,
                |(t2 - p2) / dtAssumed|]),
           p2 + (t2 - p2) * (m.max_linear_velocity /
              listMax [|(t0 - p0) / dtAssumed|, |(t1 - p1) / dtAssumed|,
                |(t2 - p2) / dtAssumed|])]) ∧
    (m.max_angular_velocity <
        listMax [|(t3 - p3) / dtAssumed|, |(t4 - p4) / dtAssumed|,
          |(t5 - p5) / dtAssumed|] →
      ((m.check_velocity_limits (some (p0 :: p1 :: p2 :: p3 :: p4 :: p5 :: pr)) none
          { ctype := "cartesian",
            target := some (t0 :: t1 :: t2 :: t3 :: t4 :: t5 :: tr),
            velocity := v, reason := rn }).2.target.getD []).drop 3
        = [p3 + (t3 - p3) * (m.max_angular_velocity /
              listMax [|(t3 - p3) / dtAssumed|, |(t4 - p4) / dtAssumed|,
                |(t5 - p5) / dtAssumed|]),
           p4 + (t4 - p4) * (m.max_angular_velocity /
              listMax [|(t3 - p3) / dtAssumed|, |(t4 - p4) / dtAssumed|,
                |(t5 - p5) / dtAssumed|]),
           p5 + (t5 - p5) * (m.max_angular_velocity /
              listMax [|(t3 - p3) / dtAssumed|, |(t4 - p4) / dtAssumed|,
                |(t5 - p5) / dtAssumed|])]) ∧
    (∀ i, i < tj.length →
      (((m.check_velocity_limits none (some cj)
          { ctype := "joint", target := some tj, velocity := vj,
            reason := rj }).2.target.getD []).getD i 0) - cj.getD i 0
        = (tj.getD i 0 - cj.getD i 0) * (m.max_joint_velocity /
            listMax ((List.range tj.length).map
              (fun i => |(tj.getD i 0 - cj.getD i 0) / dtAssumed|)))) ∧
    ((SafetyMonitor.check_commands {} (some [0, 0, 0, 0, 0, 0]) none
        { ctype := "cartesian", target := some [1, 0, 0, 0, 0, 0],
          velocity := some 50 }).2.target = some [1/200, 0, 0, 0, 0, 0]) :=
  ⟨fun hLin => cvl_cart_linear m t0 t1 t2 t3 t4 t5 tr p0 p1 p2 p3 p4 p5 pr v rn hLin,
   fun hAng => cvl_cart_angular m t0 t1 t2 t3 t4 t5 tr p0 p1 p2 p3 p4 p5 pr v rn hAng,
   fun i hi => cvl_joint_prop m tj cj vj rj htj hlen hJ i hi,
   by norm_num [SafetyMonitor.check_commands, SafetyMonitor.check_velocity_limits,
     SafetyMonitor.check_workspace_limits, clipAxis, listMax, dtAssumed,
     show List.range 3 = [0, 1, 2] from rfl,
     show List.range' 3 3 = [3, 4, 5] from rfl,
     List.getD_eq_getElem?_getD, max_def, abs_of_nonneg, abs_of_nonpos]⟩

/-- C2 witness: the proportional rescale at a concrete state exceeding the
linear, angular and joint limits, plus the spec's concrete scenario. -/
theorem velocity_limit_proportional_rescale_witness :
    ((SafetyMonitor.check_velocity_limits {} (some [0, 0, 0, 0, 0, 0]) none
        { ctype := "cartesian", target := some [1, 0, 0, 2, 0, 0],
          velocity := some 50, reason := none }).2.target.getD []).take 3
      = [1/200, 0, 0] ∧
    ((SafetyMonitor.check_velocity_limits {} (some [0, 0, 0, 0, 0, 0]) none
        { ctype := "cartesian", target := some [1, 0, 0, 2, 0, 0],
          velocity := some 50, reason := none }).2.target.getD []).drop 3
      = [1/100, 0, 0] ∧
    (((SafetyMonitor.check_velocity_limits {} none (some [0])
        { ctype := "joint", target := some [1], velocity := some 50,
          reason := none }).2.target.getD []).getD 0 0)
        - ([0] : List ℚ).getD 0 0 = 3/10 ∧
    (SafetyMonitor.check_commands {} (some [0, 0, 0, 0, 0, 0]) none
        { ctype := "cartesian", target := some [1, 0, 0, 0, 0, 0],
          velocity := some 50 }).2.target = some [1/200, 0, 0, 0, 0, 0] := by
  have h := velocity_limit_proportional_rescale {} 1 0 0 2 0 0 [] 0 0 0 0 0 0 []
    (some 50) none [1] [0] (some 50) none (by simp) (by decide)
    (by norm_num [show List.range 1 = [0] from rfl, listMax, dtAssumed,
      abs_of_nonneg, abs_of_nonpos])
  refine ⟨?_, ?_, ?_, h.2.2.2⟩
  · rw [h.1 (by norm_num [listMax, dtAssumed, max_def, abs_of_nonneg, abs_of_nonpos])]
    norm_num [listMax, dtAssumed, max_def, abs_of_nonneg, abs_of_nonpos]
  · rw [h.2.1 (by norm_num [listMax, dtAssumed, max_def, abs_of_nonneg, abs_of_nonpos])]
    norm_num [listMax, dtAssumed, max_def, abs_of_nonneg, abs_of_nonpos]
  · have hc := h.2.2.1 0 (by decide)
    rw [hc]
    norm_num [show List.range 1 = [0] from rfl, listMax, dtAssumed, max_def,
      abs_of_nonneg, abs_of_nonpos]

lemma cleanup_not_mem_runTick (s : LoopState) (t : TickInput) :
    RobotEvent.cleanup ∉ (s.runTick t).2 := by
  unfold LoopState.runTick LoopState.emergencyStopStep LoopState.disableStep
  dsimp only
  split_ifs <;> simp

lemma cleanup_not_mem_runTicks (ts : List TickInput) :
    ∀ s : LoopState, RobotEvent.cleanup ∉ (s.runTicks ts).2 := by
  induction ts with
  | nil => intro s; simp [LoopState.runTicks]
  | cons t ts ih =>
    intro s
    unfold LoopState.runTicks
    split_ifs with h
    · dsimp only
      rw [List.mem_append]
      rintro (hmem | hmem)
      · exact cleanup_not_mem_runTick s t hmem
      · exact ih _ hmem
    · simp

/-- C7 (amended): on every exit from the running loop — normal stop,
emergency stop, exception or external cancellation — the `finally` block
runs the input source's `cleanup()` exactly once, as the final action; a
`Stop` is issued before the cleanup on the emergency-stop exit path, but
the loop itself issues no `Stop` on the other exit paths. -/
theorem cleanup_exactly_once (s : LoopState) (ts : List TickInput)
    (t0 : TickInput) (ts2 : List TickInput) (hes : t0.emergency_stop = true) :
    (s.run ts).2.count RobotEvent.cleanup = 1 ∧
    (s.run ts).2.getLast? = some RobotEvent.cleanup ∧
    (s.run (t0 :: ts2)).2.head? = some RobotEvent.stop := by
  refine ⟨?_, ?_, ?_⟩
  · unfold LoopState.run
    dsimp only
    rw [List.count_append]
    have h0 := cleanup_not_mem_runTicks ts { s with running := true }
    simp [List.count_eq_zero.mpr h0]
  · unfold LoopState.run
    dsimp only
    exact List.getLast?_concat _
  · unfold LoopState.run LoopState.runTicks
    rw [if_pos (rfl : ({ s with running := true } : LoopState).running = true)]
    unfold LoopState.runTick
    rw [if_pos hes]
    unfold LoopState.emergencyStopStep
    dsimp only
    simp

/-- C7 witness: a run consisting of a single emergency-stop tick. -/
theorem cleanup_exactly_once_witness :
    (LoopState.run {} [{ emergency_stop := true }]).2.count RobotEvent.cleanup = 1 ∧
    (LoopState.run {} [{ emergency_stop := true }]).2.getLast?
      = some RobotEvent.cleanup ∧
    (LoopState.run {} [{ emergency_stop := true }]).2.head?
      = some RobotEvent.stop :=
  cleanup_exactly_once {} [{ emergency_stop := true }] { emergency_stop := true }
    [] rfl

/-- C8 (amended): on a tick whose input reports emergency stop, the session
calls `robot.stop()`, disables control and exits the loop (no further tick
is processed), but `SafetyMonitor.trigger_emergency_stop()` is never
invoked: the safety monitor's state — in particular its sticky flag — is
left exactly as it was. -/
theorem estop_tick_stops_and_exits (s : LoopState) (t : TickInput)
    (ts : List TickInput) (hes : t.emergency_stop = true) :
    (s.run (t :: ts)).2.head? = some RobotEvent.stop ∧
    (s.run (t :: ts)).1.running = false ∧
    (s.run (t :: ts)).1.enabled = false ∧
    (s.run (t :: ts)).1.safety = s.safety := by
  unfold LoopState.run LoopState.runTicks
  rw [if_pos (rfl : ({ s with running := true } : LoopState).running = true)]
  unfold LoopState.runTick
  rw [if_pos hes]
  unfold LoopState.emergencyStopStep LoopState.disableStep
  dsimp only
  split_ifs with hsen
  all_goals dsimp only
  · rw [runTicks_not_running ⟨false, false, s.safety⟩ rfl ts]
    simp
  · rw [runTicks_not_running ⟨false, s.enabled, s.safety⟩ rfl ts]
    simp only [Bool.not_eq_true] at hsen
    simp [hsen]

/-- C8 witness: a single emergency-stop tick from an enabled session whose
safety monitor flag is false. -/
theorem estop_tick_stops_and_exits_witness :
    (LoopState.run { enabled := true } [{ emergency_stop := true }]).2.head?
      = some RobotEvent.stop ∧
    (LoopState.run { enabled := true } [{ emergency_stop := true }]).1.running
      = false ∧
    (LoopState.run { enabled := true } [{ emergency_stop := true }]).1.enabled
      = false ∧
    (LoopState.run { enabled := true } [{ emergency_stop := true }]).1.safety
      = ({} : SafetyMonitor) :=
  estop_tick_stops_and_exits { enabled := true } { emergency_stop := true } [] rfl

end RealmanTeleop
